import Mathlib

/-!
Shallow embedding of the Student Simulation Environment from
src/environment.py (classes StudentEnv and StudentEnvBypass, plus the
module-level helper functions and constants).

Modelling conventions:
* machine floats become exact rationals; rewards that involve np.sqrt live
  in the reals, all stored state is rational;
* each np.random draw is an explicit input: np.random.normal(m, s) becomes
  m + s * z for a caller-supplied standard draw z, np.random.random()
  becomes a caller-supplied uniform draw, and np.random.choice becomes the
  inverse-cdf index of a caller-supplied uniform draw;
* numpy arrays become total functions indexed by natural numbers; theorems
  restrict attention to in-range indices;
* the external collaborator estimate_skills lives in utils.py, which is not
  part of the reviewed sources, so it is a parameter of the embedding (the
  spec only fixes that it is a deterministic function of the score layer);
* a step on an invalid action fails the action_space assertion before any
  state write, embedded as an Option-valued step that returns none.
-/

/-- environment.py line 14. -/
def MEAN_START_SKILL_LEVEL : ℚ := 20

/-- environment.py line 15. -/
def STD_START_SKILL_LEVEL : ℚ := 10

/-- environment.py line 17 (used only by the dead local in _train). -/
def POPULATION_MEAN_SKILL_GAIN : ℚ := 2

/-- environment.py line 22. -/
def STUDENT_SKILL_GAIN_STD : ℚ := 1/5

/-- environment.py line 24. -/
def TEST_SCORE_STD : ℚ := 1/2

/-- environment.py line 26. -/
def TARGET_SCORE : ℚ := 95

/-- environment.py line 30. -/
def REWARD_FOR_ACHIEVING_TARGET_LEVEL : ℚ := 200

/-- environment.py line 31. -/
def REWARD_FOR_ACHIEVING_ALL_LEVELS : ℚ := 2000

/-- environment.py line 33. -/
def PENALTY_FOR_UNNECESSARY_TEST : ℚ := -700

/-- environment.py line 34. -/
def TIME_PENALTY_FOR_TEST : ℚ := -2

/-- environment.py line 35. -/
def GAIN_MULTIPLIER_FOR_TEST : ℚ := 0

/-- environment.py line 37. -/
def NOT_ADAPTED_DIFFICULTY_PENALTY : ℚ := 1/4

/-- environment.py line 41. -/
def PROPER_LEARNING_TYPE_REWARD : ℚ := 0

/-- The state owned by a StudentEnv instance (environment.py lines 44-85).
Arrays are total functions; entries outside the declared shape are junk. -/
structure EnvState where
  num_subjects : ℕ
  difficulties_levels : ℕ
  learning_type_number : ℕ
  skills_levels : ℕ → ℚ
  last_scores : ℕ → ℕ → ℕ → ℚ
  mean_skill_gains : ℕ → ℕ → ℚ
  cumulative_train_time : ℕ → ℚ
  train_counter : ℕ → ℕ → ℕ → ℚ
  episode : ℕ
  step_num : ℕ

/-- A 5-component MultiDiscrete action (environment.py lines 47-53). -/
structure EnvAction where
  is_test : ℕ
  subject : ℕ
  test_difficulty : ℕ
  learning_type : ℕ
  learning_difficulty : ℕ

/-- gym MultiDiscrete containment for the declared action space: every
component below its bound (checked by the assert at environment.py line 88). -/
def validAction (s : EnvState) (a : EnvAction) : Prop :=
  a.is_test < 2 ∧ a.subject < s.num_subjects ∧
    a.test_difficulty < s.difficulties_levels ∧
    a.learning_type < s.learning_type_number ∧
    a.learning_difficulty < s.difficulties_levels

instance (s : EnvState) (a : EnvAction) : Decidable (validAction s a) :=
  inferInstanceAs (Decidable (a.is_test < 2 ∧ a.subject < s.num_subjects ∧
    a.test_difficulty < s.difficulties_levels ∧
    a.learning_type < s.learning_type_number ∧
    a.learning_difficulty < s.difficulties_levels))

/-- The external estimate_skills collaborator: from the field-0 score layer
to one estimated skill per subject (utils.py, outside the reviewed sources). -/
abbrev SkillEstimator := (ℕ → ℕ → ℚ) → ℕ → ℚ

/-- np.linspace(0, 100, num=D, endpoint=False) read at an integer index,
with Python negative indexing (environment.py lines 79 and 183). -/
def thresholdAt (D : ℕ) (i : ℤ) : ℚ :=
  100 * (if 0 ≤ i then (i : ℚ) else (D : ℚ) + (i : ℚ)) / (D : ℚ)

/-- environment.py lines 211-212: sum(difficulties_thresholds <= skill) - 1. -/
def properDifficulty (D : ℕ) (skill : ℚ) : ℤ :=
  (((List.range D).filter (fun i => decide (thresholdAt D (i : ℤ) ≤ skill))).length : ℤ) - 1

/-- environment.py line 80: review_ratio = 1 / (num_difficulty_levels + 1).
The field is set at construction and never mutated, so it is a function of
the difficulty-level count. -/
def reviewRatioOf (D : ℕ) : ℚ := 1 / ((D : ℚ) + 1)

/-- environment.py lines 182-183 (_get_scaled_mean_score). -/
def get_scaled_mean_score (s : EnvState) (subject : ℕ) (difficulty : ℤ) : ℚ :=
  (s.skills_levels subject - thresholdAt s.difficulties_levels difficulty) *
    (s.difficulties_levels : ℚ)

/-- environment.py lines 173-175 (_get_too_hard_test_mean). -/
def get_too_hard_test_mean (s : EnvState) (subject difficulty : ℕ)
    (proper_difficulty : ℤ) : ℚ :=
  reviewRatioOf s.difficulties_levels ^ ((difficulty : ℤ) - proper_difficulty).toNat *
    get_scaled_mean_score s subject proper_difficulty

/-- environment.py lines 177-180 (_get_proper_test_mean). -/
def get_proper_test_mean (s : EnvState) (subject difficulty : ℕ) : ℚ :=
  let proper_mean := get_scaled_mean_score s subject (difficulty : ℤ)
  let review_score := if difficulty ≠ 0 then reviewRatioOf s.difficulties_levels else 0
  review_score * 100 + proper_mean * (1 - review_score)

/-- environment.py lines 165-171 (_get_test_mean). -/
def get_test_mean (s : EnvState) (subject difficulty : ℕ) : ℚ :=
  let pd := properDifficulty s.difficulties_levels (s.skills_levels subject)
  if pd < (difficulty : ℤ) then get_too_hard_test_mean s subject difficulty pd
  else if (difficulty : ℤ) < pd then 100
  else get_proper_test_mean s subject difficulty

/-- environment.py line 117: the clamped sampled test score, with z the
standard draw behind np.random.normal(test_mean, TEST_SCORE_STD). -/
def sampled_test_score (s : EnvState) (subject difficulty : ℕ) (z : ℚ) : ℚ :=
  min (max (get_test_mean s subject difficulty + TEST_SCORE_STD * z) 0) 100

/-- environment.py lines 118-119: write the gain into field 1 and the new
score into field 0 of the tested cell. -/
def scoresAfterSample (s : EnvState) (subject difficulty : ℕ) (z : ℚ) :
    ℕ → ℕ → ℕ → ℚ :=
  fun a b k =>
    if a = subject ∧ b = difficulty ∧ k = 0 then sampled_test_score s subject difficulty z
    else if a = subject ∧ b = difficulty ∧ k = 1 then
      sampled_test_score s subject difficulty z - s.last_scores subject difficulty 0
    else s.last_scores a b k

/-- environment.py lines 120-121: difference of the external skill estimate
after and before the score write, at the tested subject. -/
def estimated_improvement (est : SkillEstimator) (s : EnvState) (subject difficulty : ℕ)
    (z : ℚ) : ℚ :=
  est (fun a b => scoresAfterSample s subject difficulty z a b 0) subject -
    est (fun a b => s.last_scores a b 0) subject

/-- environment.py lines 144-163 (_get_mean_type_gain): returns the per-type
result vector and the updated train_counter. Mirrors two quirks of the
source: after the zip loop the name ratio holds the scalar share of the last
learning type (the loop unpacking shadows the ratio vector), and the counter
update loop ranges over learning_type_number while indexing the difficulty
axis of train_counter. -/
def get_mean_type_gain (s : EnvState) (subject difficulty : ℕ)
    (estimated_improvement : ℚ) : (ℕ → ℚ) × (ℕ → ℕ → ℕ → ℚ) :=
  let counts : ℕ → ℚ := fun t => s.last_scores subject difficulty (2 + t)
  let total : ℚ := ((List.range s.learning_type_number).map counts).sum
  if 0 < total then
    let share : ℕ → ℚ := fun t => counts t / total
    let new_gain : ℚ := estimated_improvement / total
    let result : ℕ → ℚ := fun t =>
      if s.train_counter subject difficulty t = 0 then new_gain
      else (s.train_counter subject difficulty t *
              s.last_scores subject difficulty (s.learning_type_number + 2 + t) +
            share t * new_gain) /
           (s.train_counter subject difficulty t + share t)
    let last_share : ℚ := share (s.learning_type_number - 1)
    (result, fun a b t =>
      if a = subject ∧ b < s.learning_type_number then s.train_counter a b t + last_share
      else s.train_counter a b t)
  else
    (fun t => s.last_scores subject difficulty (s.learning_type_number + 2 + t),
     s.train_counter)

/-- environment.py lines 126-128: one np.average update with weights 1 and
0.5 of the per-type tail of row (s2, d). -/
def blendRow (L : ℕ) (mtg : ℕ → ℚ) (s2 d : ℕ) (f : ℕ → ℕ → ℕ → ℚ) :
    ℕ → ℕ → ℕ → ℚ :=
  fun a b k =>
    if a = s2 ∧ b = d ∧ L + 2 ≤ k ∧ k < 2 * L + 2 then
      (f a b k + (1/2) * mtg (k - (L + 2))) / (3/2)
    else f a b k

/-- environment.py line 124: overwrite of the per-type tail of the tested
subject at difficulty d with the new attribution vector. -/
def setRow (L : ℕ) (mtg : ℕ → ℚ) (subject d : ℕ) (f : ℕ → ℕ → ℕ → ℚ) :
    ℕ → ℕ → ℕ → ℚ :=
  fun a b k =>
    if a = subject ∧ b = d ∧ L + 2 ≤ k ∧ k < 2 * L + 2 then mtg (k - (L + 2))
    else f a b k

/-- environment.py lines 123-128, inner loop at one difficulty d: first the
overwrite for the tested subject, then the blend over all subjects in order. -/
def propagateRow (S L subject : ℕ) (mtg : ℕ → ℚ) (d : ℕ) (f : ℕ → ℕ → ℕ → ℚ) :
    ℕ → ℕ → ℕ → ℚ :=
  (List.range S).foldl (fun g s2 => blendRow L mtg s2 d g) (setRow L mtg subject d f)

/-- environment.py lines 123-128, outer loop over every difficulty. -/
def propagateAll (S D L subject : ℕ) (mtg : ℕ → ℚ) (f : ℕ → ℕ → ℕ → ℚ) :
    ℕ → ℕ → ℕ → ℚ :=
  (List.range D).foldl (fun g d => propagateRow S L subject mtg d g) f

/-- The attribution pair computed inside _test (environment.py line 122),
after the score writes of lines 118-119 have landed. -/
def testAttribution (est : SkillEstimator) (s : EnvState) (subject difficulty : ℕ)
    (z : ℚ) : (ℕ → ℚ) × (ℕ → ℕ → ℕ → ℚ) :=
  get_mean_type_gain { s with last_scores := scoresAfterSample s subject difficulty z }
    subject difficulty (estimated_improvement est s subject difficulty z)

/-- environment.py lines 113-142 (_test): the updated state and the reward
returned by the method. The step wrapper adds the completion bonus and the
step cost afterwards. -/
noncomputable def testOp (est : SkillEstimator) (z : ℚ) (s : EnvState) (subject difficulty : ℕ) :
    EnvState × ℝ :=
  let previous_score := s.last_scores subject difficulty 0
  let f2 := scoresAfterSample s subject difficulty z
  let pair := testAttribution est s subject difficulty z
  let f3 := propagateAll s.num_subjects s.difficulties_levels s.learning_type_number
    subject pair.1 f2
  let f4 := fun a b k =>
    if a = subject ∧ b = difficulty ∧ 2 ≤ k ∧ k < 2 + s.learning_type_number then 0
    else f3 a b k
  let s1 : EnvState := { s with last_scores := f4, train_counter := pair.2 }
  let reward : ℝ :=
    if s.cumulative_train_time subject = 0 then ((TIME_PENALTY_FOR_TEST : ℚ) : ℝ)
    else if TARGET_SCORE ≤ s1.last_scores subject difficulty 0 then
      (if previous_score < TARGET_SCORE then
        ((REWARD_FOR_ACHIEVING_TARGET_LEVEL * ((difficulty : ℚ) + 1) /
          (s.difficulties_levels : ℚ) : ℚ) : ℝ)
      else ((PENALTY_FOR_UNNECESSARY_TEST : ℚ) : ℝ))
    else ((GAIN_MULTIPLIER_FOR_TEST : ℚ) : ℝ) * (1 / Real.sqrt ((s.step_num : ℝ) + 1)) *
      (((s1.last_scores subject difficulty 0 - previous_score) /
        s.cumulative_train_time subject : ℚ) : ℝ) + ((TIME_PENALTY_FOR_TEST : ℚ) : ℝ)
  (s1, reward)

/-- np.argmax over f 0, ..., f (n-1): first index attaining the maximum. -/
def argmaxIdx (n : ℕ) (f : ℕ → ℚ) : ℕ :=
  (List.range n).foldl (fun best i => if f best < f i then i else best) 0

/-- environment.py lines 207-209 (_get_not_adapted_learning_penalty). -/
def get_not_adapted_learning_penalty (s : EnvState) (skill : ℚ)
    (learning_difficulty : ℕ) : ℚ :=
  NOT_ADAPTED_DIFFICULTY_PENALTY ^
    ((learning_difficulty : ℤ) - properDifficulty s.difficulties_levels skill).natAbs

/-- environment.py lines 185-205 (_train): updated state and returned reward.
The locals of lines 197-200 are computed by the source and never used by the
returned value; the argmax comparisons of lines 201-202 range over the
hardcoded 3 x 3 shape of mean_skill_gains for the population argmax and over
the real observation shape for the predicted excellence. GAIN_REWARD_RATIO
of line 39 is the literal 1/10 below. -/
def trainOp (est : SkillEstimator) (z : ℚ) (s : EnvState)
    (subject learning_type learning_difficulty : ℕ) : EnvState × ℚ :=
  let sampled_gain := s.mean_skill_gains subject learning_type + STUDENT_SKILL_GAIN_STD * z
  let adjusted_gain :=
    max (sampled_gain *
      get_not_adapted_learning_penalty s (s.skills_levels subject) learning_difficulty) 0
  let skills1 := fun i =>
    if i = subject then min (s.skills_levels subject + adjusted_gain) 100
    else s.skills_levels i
  let ctt1 := fun i =>
    if i = subject then s.cumulative_train_time i + ((learning_type : ℚ) + 1)
    else s.cumulative_train_time i
  let scores1 := fun a b k =>
    if a = subject ∧ b = learning_difficulty ∧ k = 2 + learning_type then
      s.last_scores a b k + 1
    else s.last_scores a b k
  let s1 : EnvState :=
    { s with skills_levels := skills1, cumulative_train_time := ctt1,
             last_scores := scores1 }
  let estimated_skill := est (fun a b => scores1 a b 0) subject
  let estimated_penalty := get_not_adapted_learning_penalty s estimated_skill learning_difficulty
  let adapted_learning_reward :=
    estimated_penalty * (POPULATION_MEAN_SKILL_GAIN * (learning_type : ℚ)) * (1/10)
  let predicted_excellence := argmaxIdx s.learning_type_number (fun t =>
    ((List.range s.num_subjects).map (fun a =>
      ((List.range s.difficulties_levels).map (fun b =>
        scores1 a b (s.learning_type_number + 2 + t))).sum)).sum)
  let best_type := argmaxIdx 3 (fun t =>
    ((List.range 3).map (fun a => s.mean_skill_gains a t)).sum)
  let reward : ℚ :=
    if learning_type = best_type ∧ predicted_excellence = learning_type then
      PROPER_LEARNING_TYPE_REWARD
    else 0
  (s1, reward)

/-- environment.py line 100: (last_scores[:, -1, 0] > TARGET_SCORE).all(). -/
def allTopAboveTarget (s : EnvState) : Prop :=
  ∀ i, i < s.num_subjects →
    TARGET_SCORE < s.last_scores i (s.difficulties_levels - 1) 0

instance (s : EnvState) : Decidable (allTopAboveTarget s) :=
  inferInstanceAs (Decidable (∀ i, i < s.num_subjects →
    TARGET_SCORE < s.last_scores i (s.difficulties_levels - 1) 0))

/-- The fresh random draws one step may consume. -/
structure StepDraws where
  testZ : ℚ
  trainZ : ℚ
  choiceU : ℚ

/-- environment.py lines 87-111 (StudentEnv.step). Returns none when the
action_space assertion of line 88 fails (which precedes every state write);
otherwise the successor state, the reward, and the done flag. -/
noncomputable def stepFn (est : SkillEstimator) (dr : StepDraws) (s : EnvState) (a : EnvAction) :
    Option (EnvState × ℝ × Bool) :=
  if validAction s a then
    if a.is_test ≠ 0 then
      let p := testOp est dr.testZ s a.subject a.test_difficulty
      let s2 : EnvState := { p.1 with cumulative_train_time := fun i =>
        if i = a.subject then 0 else p.1.cumulative_train_time i }
      if allTopAboveTarget s2 then
        some ({ s2 with step_num := s.step_num + 1 },
          p.2 + ((REWARD_FOR_ACHIEVING_ALL_LEVELS : ℚ) : ℝ) - Real.sqrt (s.step_num : ℝ),
          true)
      else
        some ({ s2 with step_num := s.step_num + 1 },
          p.2 - Real.sqrt (s.step_num : ℝ), false)
    else
      let p := trainOp est dr.trainZ s a.subject a.learning_type a.learning_difficulty
      some ({ p.1 with step_num := s.step_num + 1 },
        ((p.2 : ℚ) : ℝ) - Real.sqrt (s.step_num : ℝ), false)
  else none

/-- np.random.choice(n, p=probVec) for a uniform draw u: the searchsorted
index of u in the normalized cumulative distribution of probVec. -/
def chooseIdx (n : ℕ) (probVec : List ℚ) (u : ℚ) : ℕ :=
  ((List.range probVec.length).filter
    (fun i => decide ((probVec.take (i + 1)).sum ≤ u * probVec.sum))).length

/-- environment.py line 289: the default probability vector [0.8, 0.1, 0.1]. -/
def defaultProbVec : List ℚ := [4/5, 1/10, 1/10]

/-- environment.py lines 293-318 (StudentEnvBypass.step): identical to the
base step except that on the training path the requested learning type is
replaced by a categorical draw over difficulty-indexed slots. -/
noncomputable def stepBypassFn (probVec : List ℚ) (est : SkillEstimator) (dr : StepDraws)
    (s : EnvState) (a : EnvAction) : Option (EnvState × ℝ × Bool) :=
  if validAction s a then
    if a.is_test ≠ 0 then
      let p := testOp est dr.testZ s a.subject a.test_difficulty
      let s2 : EnvState := { p.1 with cumulative_train_time := fun i =>
        if i = a.subject then 0 else p.1.cumulative_train_time i }
      if allTopAboveTarget s2 then
        some ({ s2 with step_num := s.step_num + 1 },
          p.2 + ((REWARD_FOR_ACHIEVING_ALL_LEVELS : ℚ) : ℝ) - Real.sqrt (s.step_num : ℝ),
          true)
      else
        some ({ s2 with step_num := s.step_num + 1 },
          p.2 - Real.sqrt (s.step_num : ℝ), false)
    else
      let lt := chooseIdx s.difficulties_levels probVec dr.choiceU
      let p := trainOp est dr.trainZ s a.subject lt a.learning_difficulty
      some ({ p.1 with step_num := s.step_num + 1 },
        ((p.2 : ℚ) : ℝ) - Real.sqrt (s.step_num : ℝ), false)
  else none

/-- The random draws consumed by construction and by reset. -/
structure GainDraws where
  coin : ℚ
  excelZ : ℚ
  otherZ : ℕ → ℚ
  noiseZ : ℕ → ℕ → ℚ

/-- environment.py lines 249-275 (_get_mean_skills_gains). The source ignores
both arguments and hardcodes a 3 x 3 shape. On a coin above 0.5 the first
learning type is the excellence type, Normal(3, 0.2) against Normal(0.3, 0.1);
otherwise the last learning type is the excellence type, Normal(3, 0.2)
against Normal(0.2, 0.1). The tiled row is perturbed with Normal(0, 0.05)
noise and clamped to a minimum of 0.05. -/
def get_mean_skills_gains (subjects_number learning_types_number : ℕ)
    (dr : GainDraws) : List (List ℚ) :=
  if 1/2 < dr.coin then
    (List.range 3).map (fun i => (List.range 3).map (fun j =>
      max (([3 + (1/5) * dr.excelZ, 3/10 + (1/10) * dr.otherZ 0,
             3/10 + (1/10) * dr.otherZ 1].getD j 0) + (1/20) * dr.noiseZ i j) (1/20)))
  else
    (List.range 3).map (fun i => (List.range 3).map (fun j =>
      max (([1/5 + (1/10) * dr.otherZ 0, 1/5 + (1/10) * dr.otherZ 1,
             3 + (1/5) * dr.excelZ].getD j 0) + (1/20) * dr.noiseZ i j) (1/20)))

/-- Matrix cell access for the generated gain profile. -/
def gainAt (m : List (List ℚ)) (a t : ℕ) : ℚ := (m.getD a []).getD t 0

/-- The draws consumed by the constructor and by reset. -/
structure SkillDraws where
  skillZ : ℕ → ℚ
  gains : GainDraws

/-- environment.py lines 45-85: the state right after construction. -/
def initState (num_subjects num_difficulty_levels num_learning_types : ℕ)
    (dr : SkillDraws) : EnvState :=
  { num_subjects := num_subjects
    difficulties_levels := num_difficulty_levels
    learning_type_number := num_learning_types
    skills_levels := fun i =>
      max (MEAN_START_SKILL_LEVEL + STD_START_SKILL_LEVEL * dr.skillZ i) 0
    last_scores := fun _ _ _ => 0
    mean_skill_gains :=
      gainAt (get_mean_skills_gains num_subjects num_learning_types dr.gains)
    cumulative_train_time := fun _ => 0
    train_counter := fun _ _ _ => 0
    episode := 0
    step_num := 0 }

/-- environment.py lines 214-226 (reset): skills and the gain profile are
re-drawn (the latter regenerated from the stored 3 x 3 shape), history and
counters zeroed, episode incremented, step counter reset. -/
def resetEnv (s : EnvState) (dr : SkillDraws) : EnvState :=
  { s with
    skills_levels := fun i =>
      max (MEAN_START_SKILL_LEVEL + STD_START_SKILL_LEVEL * dr.skillZ i) 0
    last_scores := fun _ _ _ => 0
    mean_skill_gains := gainAt (get_mean_skills_gains 3 3 dr.gains)
    cumulative_train_time := fun _ => 0
    train_counter := fun _ _ _ => 0
    episode := s.episode + 1
    step_num := 0 }

/-- The state after a step call: the successor state on success, the
unchanged state when the action assertion rejects the call. -/
noncomputable def stepStateTotal (est : SkillEstimator) (dr : StepDraws) (s : EnvState)
    (a : EnvAction) : EnvState :=
  match stepFn est dr s a with
  | some x => x.1
  | none => s

/-- States an environment instance can reach through construction followed by
any sequence of reset and step calls, with every skill draw small enough that
the sampled start skill is at most 100 (the source clamps the start skill from
below only). -/
inductive Reach (est : SkillEstimator) : EnvState → Prop where
  | init : ∀ S D L (dr : SkillDraws),
      (∀ i, i < S → MEAN_START_SKILL_LEVEL + STD_START_SKILL_LEVEL * dr.skillZ i ≤ 100) →
      Reach est (initState S D L dr)
  | reset : ∀ s (dr : SkillDraws), Reach est s →
      (∀ i, i < s.num_subjects →
        MEAN_START_SKILL_LEVEL + STD_START_SKILL_LEVEL * dr.skillZ i ≤ 100) →
      Reach est (resetEnv s dr)
  | step : ∀ s (dr : StepDraws) (a : EnvAction), Reach est s →
      Reach est (stepStateTotal est dr s a)

/-- The bounds the spec asserts for latent skill and the observed score and
gain fields. -/
def SoundBounds (s : EnvState) : Prop :=
  (∀ i, i < s.num_subjects → 0 ≤ s.skills_levels i ∧ s.skills_levels i ≤ 100) ∧
  (∀ a b, a < s.num_subjects → b < s.difficulties_levels →
    (0 ≤ s.last_scores a b 0 ∧ s.last_scores a b 0 ≤ 100) ∧
    (-100 ≤ s.last_scores a b 1 ∧ s.last_scores a b 1 ≤ 100))

/-- A trivial estimator instance used to instantiate witnesses. -/
def estZero : SkillEstimator := fun _ _ => 0

/-- All-zero step draws used by witnesses and counterexamples. -/
def drZero : StepDraws := { testZ := 0, trainZ := 0, choiceU := 0 }

/-- All-zero construction draws. -/
def skillDrawsZero : SkillDraws :=
  { skillZ := fun _ => 0,
    gains := { coin := 0, excelZ := 0, otherZ := fun _ => 0, noiseZ := fun _ _ => 0 } }

/-- Construction draw set whose skill draw is 13 sigma above the mean (the
sampled start skill is then 20 + 10 * 13 = 150). -/
def skillDrawsBad : SkillDraws :=
  { skillZ := fun _ => 13, gains := skillDrawsZero.gains }

/-- Step draws whose test draw pushes the sampled score to 96. -/
def drT192 : StepDraws := { testZ := 192, trainZ := 0, choiceU := 0 }

/-- A one-subject, one-difficulty, one-learning-type state whose single
top-tier score is already 96. -/
def envC1 : EnvState :=
  { num_subjects := 1
    difficulties_levels := 1
    learning_type_number := 1
    skills_levels := fun _ => 0
    last_scores := fun a b k => if a = 0 ∧ b = 0 ∧ k = 0 then 96 else 0
    mean_skill_gains := fun _ _ => 1
    cumulative_train_time := fun _ => 0
    train_counter := fun _ _ _ => 0
    episode := 0
    step_num := 0 }

/-- A freshly reset one-subject, one-difficulty, one-learning-type state. -/
def envDone : EnvState :=
  { num_subjects := 1
    difficulties_levels := 1
    learning_type_number := 1
    skills_levels := fun _ => 0
    last_scores := fun _ _ _ => 0
    mean_skill_gains := fun _ _ => 1
    cumulative_train_time := fun _ => 0
    train_counter := fun _ _ _ => 0
    episode := 0
    step_num := 0 }

/-- A two-subject state with three difficulties and three learning types whose
stored type-gain estimate at the cell (0, 0) for type 0 is 9. -/
def envC7 : EnvState :=
  { num_subjects := 2
    difficulties_levels := 3
    learning_type_number := 3
    skills_levels := fun _ => 0
    last_scores := fun a b k => if a = 0 ∧ b = 0 ∧ k = 5 then 9 else 0
    mean_skill_gains := fun _ _ => 1
    cumulative_train_time := fun _ => 0
    train_counter := fun _ _ _ => 0
    episode := 0
    step_num := 0 }

/-- A one-subject state whose training counts since the last test at the cell
(0, 0) are 2, 1 and 0 for the three learning types. -/
def envB6 : EnvState :=
  { num_subjects := 1
    difficulties_levels := 3
    learning_type_number := 3
    skills_levels := fun _ => 0
    last_scores := fun a b k =>
      if a = 0 ∧ b = 0 ∧ k = 2 then 2 else if a = 0 ∧ b = 0 ∧ k = 3 then 1 else 0
    mean_skill_gains := fun _ _ => 1
    cumulative_train_time := fun _ => 0
    train_counter := fun _ _ _ => 0
    episode := 0
    step_num := 0 }

/-- A training action on subject 0 at the lowest difficulty and type. -/
def actTrainC1 : EnvAction :=
  { is_test := 0, subject := 0, test_difficulty := 0, learning_type := 0,
    learning_difficulty := 0 }

/-- A test action on subject 0 at the lowest difficulty. -/
def actTestC1 : EnvAction :=
  { is_test := 1, subject := 0, test_difficulty := 0, learning_type := 0,
    learning_difficulty := 0 }

/-- A training action whose subject index 5 is out of bounds for a
one-subject environment. -/
def actInvalid : EnvAction :=
  { is_test := 0, subject := 5, test_difficulty := 0, learning_type := 0,
    learning_difficulty := 0 }

/-- The training-path action rewrite performed by the bypass variant: the
requested learning type is discarded and replaced. -/
def replaceType (a : EnvAction) (t : ℕ) : EnvAction :=
  { a with learning_type := t }

/-- The one-row excellence profile the generator tiles across subjects: the
branch on the coin picks type 0 or type 2 as the excellence type
(environment.py lines 258-273). -/
def excellenceBase (dr : GainDraws) : List ℚ :=
  if 1/2 < dr.coin then
    [3 + (1/5) * dr.excelZ, 3/10 + (1/10) * dr.otherZ 0, 3/10 + (1/10) * dr.otherZ 1]
  else
    [1/5 + (1/10) * dr.otherZ 0, 1/5 + (1/10) * dr.otherZ 1, 3 + (1/5) * dr.excelZ]

/-- Closed form of the inner blend loop over subjects at one difficulty row. -/
theorem blendFold_apply (L d : ℕ) (mtg : ℕ → ℚ) (n : ℕ) (g : ℕ → ℕ → ℕ → ℚ)
    (a b k : ℕ) :
    ((List.range n).foldl (fun h s2 => blendRow L mtg s2 d h) g) a b k =
      if a < n ∧ b = d ∧ L + 2 ≤ k ∧ k < 2 * L + 2 then
        (g a b k + (1/2) * mtg (k - (L + 2))) / (3/2)
      else g a b k := by
  induction n with
  | zero => simp
  | succ m ih =>
    rw [List.range_succ, List.foldl_append]
    simp only [List.foldl_cons, List.foldl_nil, blendRow]
    rw [ih]
    split_ifs <;> first | rfl | ring1 | (exfalso; omega)

/-- Closed form of the propagation at one difficulty row: the tested subject
row is overwritten with the new vector, every other in-range subject row is
blended with weights 1 and 0.5. -/
theorem propagateRow_apply (S L subject : ℕ) (mtg : ℕ → ℚ) (d : ℕ)
    (f : ℕ → ℕ → ℕ → ℚ) (hs : subject < S) (a b k : ℕ) :
    propagateRow S L subject mtg d f a b k =
      if b = d ∧ L + 2 ≤ k ∧ k < 2 * L + 2 then
        (if a = subject then mtg (k - (L + 2))
         else if a < S then (f a b k + (1/2) * mtg (k - (L + 2))) / (3/2)
         else f a b k)
      else f a b k := by
  rw [propagateRow, blendFold_apply]
  simp only [setRow]
  split_ifs <;> first | rfl | ring1 | (exfalso; omega)

/-- Closed form of the full propagation double loop of _test: the update runs
at every difficulty row, not only the tested one. -/
theorem propagateAll_apply (S D L subject : ℕ) (mtg : ℕ → ℚ)
    (f : ℕ → ℕ → ℕ → ℚ) (hs : subject < S) (a b k : ℕ) :
    propagateAll S D L subject mtg f a b k =
      if b < D ∧ L + 2 ≤ k ∧ k < 2 * L + 2 then
        (if a = subject then mtg (k - (L + 2))
         else if a < S then (f a b k + (1/2) * mtg (k - (L + 2))) / (3/2)
         else f a b k)
      else f a b k := by
  rw [propagateAll]
  induction D with
  | zero => simp
  | succ m ih =>
    rw [List.range_succ, List.foldl_append]
    simp only [List.foldl_cons, List.foldl_nil]
    rw [propagateRow_apply _ _ _ _ _ _ hs, ih]
    split_ifs <;> first | rfl | ring1 | (exfalso; omega)

/-- The per-type gain tail of the score matrix after a test, in closed form:
the tested subject holds the new attribution vector, every other subject the
damped average of its old value and the new vector. -/
theorem testOp_tail (est : SkillEstimator) (z : ℚ) (s : EnvState)
    (subject difficulty s2 d t : ℕ) (hs : subject < s.num_subjects)
    (h2 : s2 < s.num_subjects) (hd : d < s.difficulties_levels)
    (ht : t < s.learning_type_number) :
    (testOp est z s subject difficulty).1.last_scores s2 d
        (s.learning_type_number + 2 + t) =
      if s2 = subject then (testAttribution est s subject difficulty z).1 t
      else (s.last_scores s2 d (s.learning_type_number + 2 + t) +
        (1/2) * (testAttribution est s subject difficulty z).1 t) / (3/2) := by
  simp only [testOp]
  rw [if_neg (by omega :
    ¬(s2 = subject ∧ d = difficulty ∧ 2 ≤ s.learning_type_number + 2 + t ∧
      s.learning_type_number + 2 + t < 2 + s.learning_type_number))]
  rw [propagateAll_apply _ _ _ _ _ _ hs]
  rw [if_pos ⟨hd, by omega, by omega⟩]
  have hidx : s.learning_type_number + 2 + t - (s.learning_type_number + 2) = t := by omega
  rw [hidx]
  by_cases he : s2 = subject
  · rw [if_pos he, if_pos he]
  · rw [if_neg he, if_pos h2, if_neg he]
    simp only [scoresAfterSample]
    rw [if_neg (by omega :
      ¬(s2 = subject ∧ d = difficulty ∧ s.learning_type_number + 2 + t = 0))]
    rw [if_neg (by omega :
      ¬(s2 = subject ∧ d = difficulty ∧ s.learning_type_number + 2 + t = 1))]

/-- The clamped sampled test score stays within the score bounds. -/
theorem sampled_test_score_bounds (s : EnvState) (subject difficulty : ℕ) (z : ℚ) :
    0 ≤ sampled_test_score s subject difficulty z ∧
      sampled_test_score s subject difficulty z ≤ 100 := by
  unfold sampled_test_score
  exact ⟨le_min (le_max_right _ _) (by norm_num), min_le_right _ _⟩

/-- A test preserves the skill and score bounds. -/
theorem testOp_state_bounds (est : SkillEstimator) (z : ℚ) (s : EnvState)
    (subject difficulty : ℕ) (hsub : subject < s.num_subjects)
    (hdiff : difficulty < s.difficulties_levels) (ih : SoundBounds s) :
    SoundBounds (testOp est z s subject difficulty).1 := by
  obtain ⟨ihs, ihsc⟩ := ih
  constructor
  · intro i hi
    exact ihs i hi
  · intro a b ha hb
    simp only [testOp] at ha hb ⊢
    rw [if_neg (by omega : ¬(a = subject ∧ b = difficulty ∧ 2 ≤ 0 ∧
        0 < 2 + s.learning_type_number))]
    rw [if_neg (by omega : ¬(a = subject ∧ b = difficulty ∧ 2 ≤ 1 ∧
        1 < 2 + s.learning_type_number))]
    rw [propagateAll_apply _ _ _ _ _ _ hsub, propagateAll_apply _ _ _ _ _ _ hsub]
    rw [if_neg (by omega : ¬(b < s.difficulties_levels ∧
        s.learning_type_number + 2 ≤ 0 ∧ 0 < 2 * s.learning_type_number + 2))]
    rw [if_neg (by omega : ¬(b < s.difficulties_levels ∧
        s.learning_type_number + 2 ≤ 1 ∧ 1 < 2 * s.learning_type_number + 2))]
    simp only [scoresAfterSample]
    norm_num
    by_cases hc : a = subject ∧ b = difficulty
    · rw [if_pos hc, if_pos hc]
      obtain ⟨rfl, rfl⟩ := hc
      have hsb := sampled_test_score_bounds s a b z
      have hprev := ihsc a b ha hb
      refine ⟨⟨hsb.1, hsb.2⟩, ?_, ?_⟩
      · linarith [hsb.1, hprev.1.2]
      · linarith [hsb.2, hprev.1.1]
    · rw [if_neg hc, if_neg hc]
      exact ihsc a b ha hb

/-- A training action preserves the skill and score bounds. -/
theorem trainOp_state_bounds (est : SkillEstimator) (z : ℚ) (s : EnvState)
    (subject learning_type learning_difficulty : ℕ)
    (hsub : subject < s.num_subjects) (ih : SoundBounds s) :
    SoundBounds (trainOp est z s subject learning_type learning_difficulty).1 := by
  obtain ⟨ihs, ihsc⟩ := ih
  constructor
  · intro i hi
    simp only [trainOp] at hi ⊢
    by_cases hi' : i = subject
    · rw [if_pos hi']
      subst hi'
      refine ⟨le_min (add_nonneg (ihs i hsub).1 (le_max_right _ _)) (by norm_num),
        min_le_right _ _⟩
    · rw [if_neg hi']
      exact ihs i hi
  · intro a b ha hb
    simp only [trainOp] at ha hb ⊢
    rw [if_neg (by omega : ¬(a = subject ∧ b = learning_difficulty ∧
        (0 : ℕ) = 2 + learning_type))]
    rw [if_neg (by omega : ¬(a = subject ∧ b = learning_difficulty ∧
        (1 : ℕ) = 2 + learning_type))]
    exact ihsc a b ha hb

/-- C1 counterexample: a step with a training action returns done = false even
though every top-tier score strictly exceeds the target after the update, so
the claimed if-and-only-if over every step call fails. -/
theorem c1_counterexample :
    (stepFn estZero drZero envC1 actTrainC1).map (fun x => x.2.2) = some false ∧
      (stepFn estZero drZero envC1 actTrainC1).map (fun x => x.1.last_scores 0 0 0) =
        some 96 ∧
      TARGET_SCORE < 96 := by
  have hv : validAction envC1 actTrainC1 := by decide
  refine ⟨?_, ?_, by norm_num [TARGET_SCORE]⟩
  · simp only [stepFn, if_pos hv]
    rw [if_neg (by decide : ¬(actTrainC1.is_test ≠ 0))]
    rfl
  · simp only [stepFn, if_pos hv]
    rw [if_neg (by decide : ¬(actTrainC1.is_test ≠ 0))]
    norm_num [trainOp, envC1, actTrainC1]

/-- C1 (amended): for every valid step, on a test action the done flag is set
if and only if, after the update, every subject holds a top-tier score
strictly above the target 95; on a training action the done flag is never
set, whatever the scores; and whenever done is set, the reward equals the
test reward plus the 2000 completion bonus minus the step cost. -/
theorem c1_done_flag_amended (est : SkillEstimator) (dr : StepDraws) (s : EnvState)
    (a : EnvAction) (hv : validAction s a) :
    (stepFn est dr s a).elim False (fun x =>
      (a.is_test ≠ 0 → (x.2.2 = true ↔ ∀ i, i < s.num_subjects →
        TARGET_SCORE < x.1.last_scores i (s.difficulties_levels - 1) 0)) ∧
      (a.is_test = 0 → x.2.2 = false) ∧
      (x.2.2 = true → x.2.1 =
        (testOp est dr.testZ s a.subject a.test_difficulty).2 +
          ((REWARD_FOR_ACHIEVING_ALL_LEVELS : ℚ) : ℝ) - Real.sqrt (s.step_num : ℝ))) := by
  simp only [stepFn, if_pos hv]
  by_cases ht : a.is_test ≠ 0
  · rw [if_pos ht]
    split_ifs with hdone
    · refine ⟨fun _ => ⟨fun _ => fun i hi => hdone i hi, fun _ => rfl⟩, ?_, fun _ => rfl⟩
      intro h0
      exact absurd h0 ht
    · refine ⟨fun _ => ⟨fun hfalse => absurd hfalse (by simp), fun hall => ?_⟩,
        fun h0 => absurd h0 ht, fun hfalse => absurd hfalse (by simp)⟩
      exact absurd (fun i hi => hall i hi) hdone
  · rw [if_neg ht]
    refine ⟨fun h0 => absurd h0 ht, fun _ => rfl, fun hfalse => absurd hfalse (by simp)⟩

/-- C1 witness: a valid test action on a fresh one-subject environment,
instantiating the amended done-flag theorem. -/
theorem c1_witness :
    validAction envDone actTestC1 ∧
      (stepFn estZero drT192 envDone actTestC1).elim False (fun x =>
        (actTestC1.is_test ≠ 0 → (x.2.2 = true ↔ ∀ i, i < envDone.num_subjects →
          TARGET_SCORE < x.1.last_scores i (envDone.difficulties_levels - 1) 0)) ∧
        (actTestC1.is_test = 0 → x.2.2 = false) ∧
        (x.2.2 = true → x.2.1 =
          (testOp estZero drT192.testZ envDone actTestC1.subject actTestC1.test_difficulty).2 +
            ((REWARD_FOR_ACHIEVING_ALL_LEVELS : ℚ) : ℝ) -
              Real.sqrt (envDone.step_num : ℝ))) :=
  ⟨by decide, c1_done_flag_amended estZero drT192 envDone actTestC1 (by decide)⟩

/-- C2: the test-score mean is piecewise in the proper difficulty of the true
skill: review decay times the scaled mean of the proper tier when tested too
hard, the ceiling 100 when tested too easy, and the review blend (plain
scaled mean at tier 0) when tested at the proper tier, with review ratio
1 / (number of difficulty levels + 1). -/
theorem c2_test_mean_piecewise (s : EnvState) (subject difficulty : ℕ) :
    get_test_mean s subject difficulty =
      if properDifficulty s.difficulties_levels (s.skills_levels subject) < (difficulty : ℤ) then
        (1 / ((s.difficulties_levels : ℚ) + 1)) ^
            ((difficulty : ℤ) -
              properDifficulty s.difficulties_levels (s.skills_levels subject)).toNat *
          ((s.skills_levels subject -
              thresholdAt s.difficulties_levels
                (properDifficulty s.difficulties_levels (s.skills_levels subject))) *
            (s.difficulties_levels : ℚ))
      else if (difficulty : ℤ) < properDifficulty s.difficulties_levels (s.skills_levels subject)
        then 100
      else if 0 < difficulty then
        (1 / ((s.difficulties_levels : ℚ) + 1)) * 100 +
          ((s.skills_levels subject - thresholdAt s.difficulties_levels (difficulty : ℤ)) *
            (s.difficulties_levels : ℚ)) * (1 - 1 / ((s.difficulties_levels : ℚ) + 1))
      else
        (s.skills_levels subject - thresholdAt s.difficulties_levels 0) *
          (s.difficulties_levels : ℚ) := by
  simp only [get_test_mean, get_too_hard_test_mean, get_proper_test_mean,
    get_scaled_mean_score, reviewRatioOf]
  by_cases h1 : properDifficulty s.difficulties_levels (s.skills_levels subject) < (difficulty : ℤ)
  · rw [if_pos h1, if_pos h1]
  · rw [if_neg h1, if_neg h1]
    by_cases h2 : (difficulty : ℤ) < properDifficulty s.difficulties_levels (s.skills_levels subject)
    · rw [if_pos h2, if_pos h2]
    · rw [if_neg h2, if_neg h2]
      by_cases h3 : difficulty = 0
      · subst h3
        rw [if_neg (by simp), if_neg (by omega)]
        push_cast
        ring
      · rw [if_pos h3, if_pos (Nat.pos_of_ne_zero h3)]

/-- C3: a test on a subject whose cumulative train time is zero returns
exactly TIME_PENALTY_FOR_TEST, whatever the sampled draw and the previous
score at the tested cell. -/
theorem c3_untrained_test_reward (est : SkillEstimator) (z : ℚ) (s : EnvState)
    (subject difficulty : ℕ) (h : s.cumulative_train_time subject = 0) :
    (testOp est z s subject difficulty).2 = ((TIME_PENALTY_FOR_TEST : ℚ) : ℝ) := by
  simp only [testOp]
  rw [if_pos h]

/-- C3 witness: subject 0 of envC7 has cumulative train time zero and its
test reward is exactly the time penalty. -/
theorem c3_witness :
    envC7.cumulative_train_time 0 = 0 ∧
      (testOp estZero 0 envC7 0 0).2 = ((TIME_PENALTY_FOR_TEST : ℚ) : ℝ) :=
  ⟨rfl, c3_untrained_test_reward estZero 0 envC7 0 0 rfl⟩

/-- C4 counterexample: the skill sampled at reset is clamped from below only,
so a large draw puts the latent skill at 150, outside the claimed [0, 100]
range, before any step is taken. -/
theorem c4_counterexample :
    (resetEnv (initState 1 1 1 skillDrawsZero) skillDrawsBad).skills_levels 0 = 150 ∧
      ¬((resetEnv (initState 1 1 1 skillDrawsZero) skillDrawsBad).skills_levels 0 ≤ 100) := by
  have h : (resetEnv (initState 1 1 1 skillDrawsZero) skillDrawsBad).skills_levels 0 = 150 := by
    simp only [resetEnv, initState, skillDrawsBad, MEAN_START_SKILL_LEVEL,
      STD_START_SKILL_LEVEL]
    rw [max_eq_left (by norm_num)]
    norm_num
  refine ⟨h, ?_⟩
  rw [h]
  norm_num

/-- C4 (amended): along any sequence of construction, reset and step calls in
which every sampled start skill is at most 100, every in-range latent skill
stays within [0, 100], every field-0 score stays within [0, 100] and every
field-1 gain stays within [-100, 100]; the score and gain bounds need no
side condition, only the skill upper bound does. -/
theorem c4_bounds_amended (est : SkillEstimator) (s : EnvState) (h : Reach est s) :
    SoundBounds s := by
  induction h with
  | init S D L dr hdr =>
    constructor
    · intro i hi
      simp only [initState] at hi ⊢
      exact ⟨le_max_right _ _, max_le (hdr i hi) (by norm_num)⟩
    · intro a b ha hb
      simp only [initState]
      norm_num
  | reset s dr hs hdr ih =>
    constructor
    · intro i hi
      simp only [resetEnv] at hi ⊢
      exact ⟨le_max_right _ _, max_le (hdr i hi) (by norm_num)⟩
    · intro a b ha hb
      simp only [resetEnv]
      norm_num
  | step s dr a hs ih =>
    by_cases hv : validAction s a
    · by_cases htest : a.is_test ≠ 0
      · have heq : stepStateTotal est dr s a =
            { (testOp est dr.testZ s a.subject a.test_difficulty).1 with
              cumulative_train_time := fun i => if i = a.subject then 0
                else (testOp est dr.testZ s a.subject a.test_difficulty).1.cumulative_train_time i,
              step_num := s.step_num + 1 } := by
          simp only [stepStateTotal, stepFn, if_pos hv, if_pos htest]
          split_ifs <;> rfl
        rw [heq]
        exact testOp_state_bounds est dr.testZ s a.subject a.test_difficulty
          hv.2.1 hv.2.2.1 ih
      · have heq : stepStateTotal est dr s a =
            { (trainOp est dr.trainZ s a.subject a.learning_type a.learning_difficulty).1 with
              step_num := s.step_num + 1 } := by
          simp only [stepStateTotal, stepFn, if_pos hv, if_neg htest]
        rw [heq]
        exact trainOp_state_bounds est dr.trainZ s a.subject a.learning_type
          a.learning_difficulty hv.2.1 ih
    · have heq : stepStateTotal est dr s a = s := by
        simp only [stepStateTotal, stepFn, if_neg hv]
      rw [heq]
      exact ih

/-- C4 witness: the freshly constructed environment with zero draws satisfies
all the claimed bounds. -/
theorem c4_witness : SoundBounds (initState 1 1 1 skillDrawsZero) :=
  c4_bounds_amended estZero _ (Reach.init 1 1 1 skillDrawsZero
    (fun i _ => by norm_num [skillDrawsZero, MEAN_START_SKILL_LEVEL, STD_START_SKILL_LEVEL]))

/-- C5 counterexample: called with 2 subjects the generator still returns a
3-row matrix, and with the coin on the tails branch the non-excellence types
are drawn around 0.2, not around the claimed mirrored 0.3. -/
theorem c5_counterexample :
    (get_mean_skills_gains 2 3 skillDrawsZero.gains).length = 3 ∧ (2 : ℕ) ≠ 3 ∧
      gainAt (get_mean_skills_gains 3 3 skillDrawsZero.gains) 0 0 = 1/5 ∧
      ((1/5 : ℚ) ≠ 3/10) := by
  refine ⟨?_, by norm_num, ?_, by norm_num⟩ <;>
    norm_num [get_mean_skills_gains, gainAt, skillDrawsZero, List.range_succ]

/-- C5 (amended): the generator ignores both arguments and always produces a
3 x 3 matrix; with probability one half learning type 0 is the excellence
type, drawn from Normal(3, 0.2) against Normal(0.3, 0.1) for the others, and
otherwise learning type 2 is the excellence type, drawn from Normal(3, 0.2)
against Normal(0.2, 0.1); the tiled row is perturbed per cell with
Normal(0, 0.05) noise and clamped to a minimum of 0.05. -/
theorem c5_generator_amended (a b : ℕ) (dr : GainDraws) (i j : ℕ)
    (hi : i < 3) (hj : j < 3) :
    (get_mean_skills_gains a b dr).length = 3 ∧
      ((get_mean_skills_gains a b dr).getD i []).length = 3 ∧
      gainAt (get_mean_skills_gains a b dr) i j =
        max ((excellenceBase dr).getD j 0 + (1/20) * dr.noiseZ i j) (1/20) := by
  refine ⟨?_, ?_, ?_⟩
  · unfold get_mean_skills_gains
    split_ifs <;> rfl
  · unfold get_mean_skills_gains
    split_ifs <;> interval_cases i <;> rfl
  · unfold get_mean_skills_gains excellenceBase gainAt
    split_ifs <;> interval_cases i <;> interval_cases j <;> rfl

/-- C5 witness: the amended generator characterization at cell (0, 2) of the
zero-draw profile. -/
theorem c5_witness :
    (0 : ℕ) < 3 ∧ (2 : ℕ) < 3 ∧
      ((get_mean_skills_gains 2 3 skillDrawsZero.gains).length = 3 ∧
        ((get_mean_skills_gains 2 3 skillDrawsZero.gains).getD 0 []).length = 3 ∧
        gainAt (get_mean_skills_gains 2 3 skillDrawsZero.gains) 0 2 =
          max ((excellenceBase skillDrawsZero.gains).getD 2 0 +
            (1/20) * skillDrawsZero.gains.noiseZ 0 2) (1/20)) :=
  ⟨by decide, by decide,
    c5_generator_amended 2 3 skillDrawsZero.gains 0 2 (by decide) (by decide)⟩

/-- C6: at a cell with counts (2, 1, 0) the share of type 0 is 2/3, so the
claim requires the type-0 counter at the tested cell to grow from 0 to 2/3;
the code instead adds the scalar share of the last type (here 0) to every
entry, leaving the counter at 0 — the loop unpacking shadows the share
vector and the update loop runs over the learning-type count on the
difficulty axis. -/
theorem c6_counter_update_bug :
    (get_mean_type_gain envB6 0 0 5).2 0 0 0 = 0 ∧
      envB6.train_counter 0 0 0 = 0 ∧
      envB6.last_scores 0 0 2 /
        (envB6.last_scores 0 0 2 + envB6.last_scores 0 0 3 + envB6.last_scores 0 0 4) = 2/3 ∧
      ((0 : ℚ) + 2/3 ≠ 0) := by
  refine ⟨?_, by norm_num [envB6], by norm_num [envB6], by norm_num⟩
  norm_num [get_mean_type_gain, envB6, List.range_succ]

/-- C7 counterexample: testing subject 0 at difficulty 0 changes the stored
type-gain estimate of subject 1 at difficulty 2 — a row at a difficulty
other than the tested one — from 0 to 3, so the claim that only the matching
difficulty row is updated fails. -/
theorem c7_counterexample :
    (testOp estZero 0 envC7 0 0).1.last_scores 1 2 5 = 3 ∧
      envC7.last_scores 1 2 5 = 0 ∧ ((3 : ℚ) ≠ 0) := by
  refine ⟨?_, by norm_num [envC7], by norm_num⟩
  have h5 : (5 : ℕ) = envC7.learning_type_number + 2 + 0 := rfl
  rw [h5, testOp_tail estZero 0 envC7 0 0 1 2 0 (by norm_num [envC7])
    (by norm_num [envC7]) (by norm_num [envC7]) (by norm_num [envC7])]
  rw [if_neg (by norm_num)]
  norm_num [testAttribution, get_mean_type_gain, estimated_improvement, estZero,
    scoresAfterSample, envC7, List.range_succ]

/-- C7 (amended): after the gain attribution of a test, the new per-type
vector is propagated into every difficulty row of every subject, not only
the matching one: the rows of the tested subject are set exactly to the new
vector, and the rows of every other subject become the damped average
(1 * old + 0.5 * new) / 1.5 at every difficulty. -/
theorem c7_propagation_amended (est : SkillEstimator) (z : ℚ) (s : EnvState)
    (subject difficulty s2 d t : ℕ) (hs : subject < s.num_subjects)
    (h2 : s2 < s.num_subjects) (hd : d < s.difficulties_levels)
    (ht : t < s.learning_type_number) :
    (testOp est z s subject difficulty).1.last_scores s2 d
        (s.learning_type_number + 2 + t) =
      if s2 = subject then (testAttribution est s subject difficulty z).1 t
      else (1 * s.last_scores s2 d (s.learning_type_number + 2 + t) +
        (1/2) * (testAttribution est s subject difficulty z).1 t) / (1 + 1/2) := by
  rw [testOp_tail est z s subject difficulty s2 d t hs h2 hd ht]
  by_cases he : s2 = subject
  · rw [if_pos he, if_pos he]
  · rw [if_neg he, if_neg he]
    ring

/-- C7 witness: the amended propagation rule instantiated for the non-tested
subject 1 at difficulty 2 of envC7. -/
theorem c7_witness :
    0 < envC7.num_subjects ∧ 1 < envC7.num_subjects ∧ 2 < envC7.difficulties_levels ∧
      0 < envC7.learning_type_number ∧
      ((testOp estZero 0 envC7 0 0).1.last_scores 1 2 (envC7.learning_type_number + 2 + 0) =
        if (1 : ℕ) = 0 then (testAttribution estZero envC7 0 0 0).1 0
        else (1 * envC7.last_scores 1 2 (envC7.learning_type_number + 2 + 0) +
          (1/2) * (testAttribution estZero envC7 0 0 0).1 0) / (1 + 1/2)) :=
  ⟨by decide, by decide, by decide, by decide,
    c7_propagation_amended estZero 0 envC7 0 0 1 2 0 (by decide) (by decide)
      (by decide) (by decide)⟩

/-- C8: the bypass variant is bit-identical to the base step on every test
action given the same state and draws, and on a training action it behaves
exactly like the base step run on the action whose learning type has been
replaced by the categorical draw over difficulty-indexed slots. -/
theorem c8_bypass_refinement (probVec : List ℚ) (est : SkillEstimator) (dr : StepDraws)
    (s : EnvState) (a : EnvAction) :
    (a.is_test ≠ 0 → stepBypassFn probVec est dr s a = stepFn est dr s a) ∧
    (a.is_test = 0 → validAction s a →
      chooseIdx s.difficulties_levels probVec dr.choiceU < s.learning_type_number →
      stepBypassFn probVec est dr s a =
        stepFn est dr s
          (replaceType a (chooseIdx s.difficulties_levels probVec dr.choiceU))) := by
  constructor
  · intro ht
    by_cases hv : validAction s a
    · simp only [stepBypassFn, stepFn, if_pos hv, if_pos ht]
    · simp only [stepBypassFn, stepFn, if_neg hv]
  · intro ht hv hlt
    have hv' : validAction s
        (replaceType a (chooseIdx s.difficulties_levels probVec dr.choiceU)) := by
      obtain ⟨h1, h2, h3, h4, h5⟩ := hv
      exact ⟨h1, h2, h3, hlt, h5⟩
    have hne : ¬(a.is_test ≠ 0) := by omega
    simp only [replaceType] at hv'
    simp only [stepBypassFn, stepFn, replaceType, if_pos hv, if_pos hv', if_neg hne]

/-- C8 witness: on a concrete test action the bypass step with the default
probability vector equals the base step. -/
theorem c8_witness :
    stepBypassFn defaultProbVec estZero drZero envC1 actTestC1 =
      stepFn estZero drZero envC1 actTestC1 :=
  (c8_bypass_refinement defaultProbVec estZero drZero envC1 actTestC1).1 (by decide)

/-- C9: a step on an action with an out-of-bounds component is rejected by
both the base environment and the bypass variant before any state write, and
the state after the failed call is the state before it. -/
theorem c9_invalid_action_rejected (probVec : List ℚ) (est : SkillEstimator)
    (dr : StepDraws) (s : EnvState) (a : EnvAction) (h : ¬ validAction s a) :
    stepFn est dr s a = none ∧ stepBypassFn probVec est dr s a = none ∧
      stepStateTotal est dr s a = s := by
  refine ⟨?_, ?_, ?_⟩ <;> simp [stepFn, stepBypassFn, stepStateTotal, h]

/-- C9 witness: the subject index 5 is out of bounds for a one-subject
environment, so the step is rejected with the state unchanged. -/
theorem c9_witness :
    ¬ validAction envC1 actInvalid ∧
      (stepFn estZero drZero envC1 actInvalid = none ∧
        stepBypassFn defaultProbVec estZero drZero envC1 actInvalid = none ∧
        stepStateTotal estZero drZero envC1 actInvalid = envC1) :=
  ⟨by decide,
    c9_invalid_action_rejected defaultProbVec estZero drZero envC1 actInvalid (by decide)⟩

/-- C10: after a test, the per-type gain fields of the tested subject equal
the freshly computed attribution vector in every difficulty row: the
overwrite that precedes the damped averaging makes the blend a no-op for the
tested subject. -/
theorem c10_tested_subject_rows (est : SkillEstimator) (z : ℚ) (s : EnvState)
    (subject difficulty d t : ℕ) (hs : subject < s.num_subjects)
    (hd : d < s.difficulties_levels) (ht : t < s.learning_type_number) :
    (testOp est z s subject difficulty).1.last_scores subject d
        (s.learning_type_number + 2 + t) =
      (testAttribution est s subject difficulty z).1 t := by
  rw [testOp_tail est z s subject difficulty subject d t hs hs hd ht, if_pos rfl]

/-- C10 witness: the tested subject 0 of envC7 holds exactly the new
attribution vector at difficulty 1 after a test at difficulty 0. -/
theorem c10_witness :
    0 < envC7.num_subjects ∧ 1 < envC7.difficulties_levels ∧
      0 < envC7.learning_type_number ∧
      (testOp estZero 0 envC7 0 0).1.last_scores 0 1 (envC7.learning_type_number + 2 + 0) =
        (testAttribution estZero envC7 0 0 0).1 0 :=
  ⟨by decide, by decide, by decide,
    c10_tested_subject_rows estZero 0 envC7 0 0 1 0 (by decide) (by decide) (by decide)⟩
